import Mathlib

/-!
Verification of the Nexus addon lifecycle module (`src/nexus_addon/init.rs`)
of the external-dx11-overlay repository.

The module is shallowly embedded: every external effect performed by the
Rust code (the host API `get_addon_dir`, `fs::create_dir_all`,
`ExeManager::new`, acquiring the manager mutex, `launch_exe`, `stop_exe`)
is supplied as an explicit outcome in an environment record, and each
lifecycle function returns its `Result` value, the updated process-wide
registry, and a trace of observable events (log lines and calls into the
collaborating subsystems) in the order the source performs them.

The internals of `ExeManager` and the `EXE_MANAGER` static live in
`manager.rs`, which is not part of the excerpt; where a claim depends on
them they are modelled from the specification, and each such definition
says so in its doc comment.
-/

/-- Error type of the nexus addon (`NexusError` in the source); the excerpt
uses only its `ManagerInitialization` variant. -/
inductive NexusError
  | ManagerInitialization (msg : String)
  deriving Repr, DecidableEq

/-- Rendering of a `NexusError` for log-message interpolation (the `{e}`
format arguments in the source). -/
def NexusError.render : NexusError → String
  | .ManagerInitialization msg => msg

/-- Observable events emitted by the lifecycle functions: log lines and
calls into the collaborating subsystems, listed in source order. -/
inductive Event
  | logInfo (msg : String)
  | logError (msg : String)
  | managerNew
  | registrySet
  | launchExe
  | loadTextures
  | quickAccess
  | keybinds
  | uiSetup
  | attach
  | stopExe
  | detatch
  deriving Repr, DecidableEq

/-- The exe manager as consulted by `init.rs`: the only field the excerpt
reads is the persisted `launch_on_startup` flag. -/
structure ExeManager where
  launch_on_startup : Bool
  deriving Repr, DecidableEq

/-- Modelled from the spec: the process-wide registry is the `EXE_MANAGER`
once-initialized static declared in `manager.rs` (absent from the excerpt).
It holds the single shared manager for the session. -/
abbrev Registry := Option ExeManager

/-- The registry before any installation: `get` yields nothing. -/
def Registry.empty : Registry := none

/-- Modelled from the spec: installing the shared instance succeeds exactly
once per session; a second call fails (the `Bool` is `false`) and does not
replace the existing instance. Mirrors the `set` call at init.rs line 84. -/
def Registry.set (r : Registry) (m : ExeManager) : Registry × Bool :=
  match r with
  | none => (some m, true)
  | some m0 => (some m0, false)

/-- Modelled from the spec: returns the shared instance if installed, or
nothing if the load sequence failed before registration. Mirrors the `get`
call at init.rs line 205. -/
def Registry.get (r : Registry) : Option ExeManager := r

/-- Outcomes of the external calls made by `initialize_nexus_addon`:
`get_addon_dir("LOADER_public")`, `fs::create_dir_all`, `ExeManager::new`,
the mutex lock guarding the auto-launch block, and `launch_exe`. Error
payloads are the strings the source interpolates into its messages. -/
structure InitEnv where
  getAddonDir : Option String
  createDirAll : Except String Unit
  exeManagerNew : Except NexusError ExeManager
  lockMain : Except String Unit
  launchResult : Except String Unit
  deriving Repr

/-- Shallow embedding of `initialize_nexus_addon` (init.rs lines 68-120).
Returns the function's `Result`, the registry after the call, and the trace
of events in execution order. `load_addon_textures`, `setup_quick_access`
and `setup_keybinds` (init.rs lines 124-187) always return `Ok(())` in the
source, so they appear as their events and success log lines. -/
def initialize_nexus_addon (env : InitEnv) (reg : Registry) :
    Except NexusError Unit × Registry × List Event :=
  match env.getAddonDir with
  | none =>
    (.error (.ManagerInitialization "Failed to get addon directory"), reg, [])
  | some _addonDir =>
    match env.createDirAll with
    | .error e =>
      (.error (.ManagerInitialization
        ("Failed to create addon directory: " ++ e)), reg, [])
    | .ok _ =>
      match env.exeManagerNew with
      | .error e => (.error e, reg, [])
      | .ok exeManager =>
        match Registry.set reg exeManager with
        | (regAfter, false) =>
          (.error (.ManagerInitialization "Failed to set global exe manager"),
            regAfter, [.managerNew])
        | (regAfter, true) =>
          match env.lockMain with
          | .error e =>
            (.error (.ManagerInitialization
              ("Failed to lock exe manager: " ++ e)),
              regAfter, [.managerNew, .registrySet])
          | .ok _ =>
            let launchTrace : List Event :=
              if exeManager.launch_on_startup then
                match env.launchResult with
                | .error e =>
                  [.launchExe,
                   .logError ("Failed to launch exe on startup: " ++ e)]
                | .ok _ => [.launchExe]
              else []
            (.ok (), regAfter,
              [Event.managerNew, Event.registrySet] ++ launchTrace ++
                [Event.loadTextures,
                 Event.logInfo "Addon textures loaded successfully",
                 Event.quickAccess,
                 Event.logInfo "Quick access menu setup successfully",
                 Event.keybinds,
                 Event.logInfo "Keybinds setup successfully",
                 Event.uiSetup,
                 Event.attach])

/-- Shallow embedding of `nexus_load` (init.rs lines 55-64): logs the
loading banner, runs the internal setup function, and on error logs the
failure and returns — it never propagates the error to the host. -/
def nexus_load (env : InitEnv) (reg : Registry) : Registry × List Event :=
  match initialize_nexus_addon env reg with
  | (.error e, regAfter, tr) =>
    (regAfter,
      Event.logInfo "Loading Blish HUD overlay loader addon" ::
        (tr ++ [Event.logError
          ("Failed to initialize nexus addon: " ++ e.render)]))
  | (.ok _, regAfter, tr) =>
    (regAfter,
      Event.logInfo "Loading Blish HUD overlay loader addon" ::
        (tr ++ [Event.logInfo
          "Blish HUD overlay loader addon loaded successfully"]))

/-- Outcomes of the external calls made by `cleanup_nexus_addon`: the mutex
lock during cleanup and `stop_exe`. -/
structure CleanupEnv where
  lockCleanup : Except String Unit
  stopResult : Except NexusError Unit
  deriving Repr

/-- Shallow embedding of `cleanup_nexus_addon` (init.rs lines 203-219): if
the registry holds a manager, lock it (propagating a poisoned-lock error)
and call `stop_exe` (propagating its error); only then perform the main
cleanup `crate::detatch()` and log completion. -/
def cleanup_nexus_addon (env : CleanupEnv) (reg : Registry) :
    Except NexusError Unit × List Event :=
  match Registry.get reg with
  | some _mgr =>
    match env.lockCleanup with
    | .error e =>
      (.error (.ManagerInitialization
        ("Failed to lock exe manager during cleanup: " ++ e)), [])
    | .ok _ =>
      match env.stopResult with
      | .error e => (.error e, [.stopExe])
      | .ok _ =>
        (.ok (), [Event.stopExe, Event.detatch,
          Event.logInfo "Nexus addon cleanup completed successfully"])
  | none =>
    (.ok (), [Event.detatch,
      Event.logInfo "Nexus addon cleanup completed successfully"])

/-- Shallow embedding of `nexus_unload` (init.rs lines 191-199): logs the
unloading banner, runs cleanup, logs (and swallows) any cleanup error, and
always logs the final unloaded message. It returns only a trace: the
function has no failure channel. -/
def nexus_unload (env : CleanupEnv) (reg : Registry) : List Event :=
  match cleanup_nexus_addon env reg with
  | (.error e, tr) =>
    Event.logInfo "Unloading Blish HUD overlay loader addon" ::
      (tr ++ [Event.logError
        ("Error during nexus addon cleanup: " ++ e.render),
        Event.logInfo "Blish HUD overlay loader addon unloaded"])
  | (.ok _, tr) =>
    Event.logInfo "Unloading Blish HUD overlay loader addon" ::
      (tr ++ [Event.logInfo "Blish HUD overlay loader addon unloaded"])

/-- Modelled from the spec: the supervisor state enumeration
{Idle, Running, Stopping, Stopped, Failed(reason)} of `manager.rs`, absent
from the excerpt. -/
inductive SupervisorState
  | Idle
  | Running
  | Stopping
  | Stopped
  | Failed (reason : String)
  deriving Repr, DecidableEq

/-- Modelled from the spec: the supervisor's launch-time error taxonomy. -/
inductive SupervisorError
  | AlreadyRunning
  | NoTargetConfigured
  | LaunchFailed (osError : String)
  deriving Repr, DecidableEq

/-- Modelled from the spec: the process supervisor proper (the `ExeManager`
internals of `manager.rs`, absent from the excerpt): its state, the
configured executable path, and the count of live process handles it owns
(the spec demands at most one at any time). -/
structure Supervisor where
  state : SupervisorState
  executable_path : Option String
  liveHandles : Nat
  deriving Repr, DecidableEq

/-- Modelled from the spec: `launch()` requires state Idle or Stopped;
fails with `AlreadyRunning` when Running or Stopping (Failed is terminal
until reconstruction, so the call is likewise rejected without spawning);
fails with `NoTargetConfigured` when no executable path is set; otherwise
performs the spawn, whose outcome is supplied as `spawnResult`: on success
it records the new handle and moves to Running, on failure it moves to
Failed and reports `LaunchFailed`. -/
def Supervisor.launch (s : Supervisor) (spawnResult : Except String Unit) :
    Except SupervisorError Unit × Supervisor :=
  match s.state with
  | .Running => (.error .AlreadyRunning, s)
  | .Stopping => (.error .AlreadyRunning, s)
  | .Failed _ => (.error .AlreadyRunning, s)
  | _ =>
    match s.executable_path with
    | none => (.error .NoTargetConfigured, s)
    | some _ =>
      match spawnResult with
      | .ok _ =>
        (.ok (), { s with state := .Running, liveHandles := s.liveHandles + 1 })
      | .error e =>
        (.error (.LaunchFailed e), { s with state := .Failed e })

/-- Structural last-element function on event traces. -/
def lastEvent : List Event → Option Event
  | [] => none
  | [e] => some e
  | _ :: e :: es => lastEvent (e :: es)

/-- Sample manager with the auto-launch flag enabled. -/
def mgrOn : ExeManager := ⟨true⟩

/-- Sample manager with the auto-launch flag disabled. -/
def mgrOff : ExeManager := ⟨false⟩

/-- Cleanup environment in which the lock and `stop_exe` both succeed. -/
def cenvOk : CleanupEnv := ⟨.ok (), .ok ()⟩

/-- Cleanup environment in which `stop_exe` fails. -/
def cenvStopFail : CleanupEnv :=
  ⟨.ok (), .error (.ManagerInitialization "stop failed")⟩

/-- Cleanup environment in which the cleanup lock is poisoned. -/
def cenvLockFail : CleanupEnv := ⟨.error "poisoned", .ok ()⟩

/-- Claim C2: on addon unload the core fetches the shared instance from the
registry and calls `stop()` on it, swallowing any error: for every
environment and registry, `nexus_unload` runs to completion — its trace
always ends with the final unloaded log line and it has no failure channel —
and whenever the instance is present and the lock is acquired, the stop
attempt is actually made. -/
theorem c2_unload_never_fails (env : CleanupEnv) (reg : Registry) :
    lastEvent (nexus_unload env reg) =
      some (Event.logInfo "Blish HUD overlay loader addon unloaded")
    ∧ (∀ m : ExeManager, Registry.get reg = some m →
        env.lockCleanup = Except.ok () →
        Event.stopExe ∈ nexus_unload env reg) := by
  obtain ⟨lk, st⟩ := env
  constructor
  · cases reg <;> cases lk <;> cases st <;> rfl
  · intro m hm hl
    have hr : reg = some m := hm
    subst hr
    cases lk with
    | error s => exact absurd hl (by simp)
    | ok _ =>
      cases st <;> simp [nexus_unload, cleanup_nexus_addon, Registry.get]

/-- Witness for C2 at a concrete input: the registry holds a manager, the
lock succeeds, and `stop_exe` fails; the stop attempt is in the trace and
the trace still ends with the unloaded log line. -/
theorem c2_unload_never_fails_witness :
    lastEvent (nexus_unload cenvStopFail (some mgrOn)) =
      some (Event.logInfo "Blish HUD overlay loader addon unloaded")
    ∧ Event.stopExe ∈ nexus_unload cenvStopFail (some mgrOn) :=
  ⟨(c2_unload_never_fails cenvStopFail (some mgrOn)).1,
   (c2_unload_never_fails cenvStopFail (some mgrOn)).2 mgrOn rfl rfl⟩

/-- Claim C7: the caller that fetches the shared instance during unload
handles the not-yet-initialized case gracefully: when `get()` returns
nothing the cleanup succeeds, the stop attempt is skipped entirely, and the
unload path still runs to completion, logging its progress rather than
failing. -/
theorem c7_uninitialized_get_is_graceful (env : CleanupEnv) (reg : Registry)
    (h : Registry.get reg = none) :
    (cleanup_nexus_addon env reg).1 = Except.ok ()
    ∧ Event.stopExe ∉ (cleanup_nexus_addon env reg).2
    ∧ nexus_unload env reg =
        [Event.logInfo "Unloading Blish HUD overlay loader addon",
         Event.detatch,
         Event.logInfo "Nexus addon cleanup completed successfully",
         Event.logInfo "Blish HUD overlay loader addon unloaded"] := by
  have hr : reg = none := h
  subst hr
  refine ⟨rfl, ?_, rfl⟩
  simp [cleanup_nexus_addon, Registry.get]

/-- Witness for C7 at a concrete input: an empty registry with an
otherwise-healthy cleanup environment. -/
theorem c7_uninitialized_get_is_graceful_witness :
    (cleanup_nexus_addon cenvOk Registry.empty).1 = Except.ok ()
    ∧ Event.stopExe ∉ (cleanup_nexus_addon cenvOk Registry.empty).2
    ∧ nexus_unload cenvOk Registry.empty =
        [Event.logInfo "Unloading Blish HUD overlay loader addon",
         Event.detatch,
         Event.logInfo "Nexus addon cleanup completed successfully",
         Event.logInfo "Blish HUD overlay loader addon unloaded"] :=
  c7_uninitialized_get_is_graceful cenvOk Registry.empty rfl

/-- Claim C9: once the registry holds a manager, a poisoned cleanup lock or
a failing `stop_exe` makes `cleanup_nexus_addon` return early with that
error, and `crate::detatch()` is never executed on any error path. -/
theorem c9_cleanup_error_skips_detatch (env : CleanupEnv) (reg : Registry)
    (m : ExeManager) (hm : Registry.get reg = some m) :
    (∀ s, env.lockCleanup = Except.error s →
      cleanup_nexus_addon env reg =
        (Except.error (NexusError.ManagerInitialization
          ("Failed to lock exe manager during cleanup: " ++ s)), []))
    ∧ (∀ e, env.lockCleanup = Except.ok () →
        env.stopResult = Except.error e →
        cleanup_nexus_addon env reg = (Except.error e, [Event.stopExe]))
    ∧ ((cleanup_nexus_addon env reg).1 ≠ Except.ok () →
        Event.detatch ∉ (cleanup_nexus_addon env reg).2) := by
  have hr : reg = some m := hm
  subst hr
  obtain ⟨lk, st⟩ := env
  refine ⟨?_, ?_, ?_⟩
  · intro s hs
    cases lk with
    | error s0 =>
      cases hs
      rfl
    | ok _ => exact absurd hs (by simp)
  · intro e hl he
    cases lk with
    | error s0 => exact absurd hl (by simp)
    | ok _ =>
      cases st with
      | error e0 =>
        cases he
        rfl
      | ok _ => exact absurd he (by simp)
  · intro hne
    cases lk <;> cases st <;>
      simp [cleanup_nexus_addon, Registry.get] at hne ⊢

/-- Witness for C9 at concrete inputs: a poisoned lock and, separately, a
failing `stop_exe`, each leaving `detatch` out of the trace. -/
theorem c9_cleanup_error_skips_detatch_witness :
    cleanup_nexus_addon cenvLockFail (some mgrOn) =
      (Except.error (NexusError.ManagerInitialization
        ("Failed to lock exe manager during cleanup: " ++ "poisoned")), [])
    ∧ cleanup_nexus_addon cenvStopFail (some mgrOn) =
      (Except.error (NexusError.ManagerInitialization "stop failed"),
        [Event.stopExe]) :=
  ⟨(c9_cleanup_error_skips_detatch cenvLockFail (some mgrOn) mgrOn rfl).1
      "poisoned" rfl,
   (c9_cleanup_error_skips_detatch cenvStopFail (some mgrOn) mgrOn rfl).2.1
      (NexusError.ManagerInitialization "stop failed") rfl rfl⟩

/-- Init environment in which every external call succeeds and the manager
has the auto-launch flag enabled. -/
def envOkOn : InitEnv := ⟨some "addons/LOADER_public", .ok (), .ok mgrOn, .ok (), .ok ()⟩

/-- Init environment in which every external call succeeds and the manager
has the auto-launch flag disabled. -/
def envOkOff : InitEnv := ⟨some "addons/LOADER_public", .ok (), .ok mgrOff, .ok (), .ok ()⟩

/-- Init environment in which `get_addon_dir` returns nothing. -/
def envDirFail : InitEnv := ⟨none, .ok (), .ok mgrOff, .ok (), .ok ()⟩

/-- Init environment in which auto-launch is enabled but `launch_exe`
fails. -/
def envLaunchFail : InitEnv :=
  ⟨some "addons/LOADER_public", .ok (), .ok mgrOn, .ok (), .error "spawn error"⟩

/-- Init environment in which the manager mutex is poisoned at the
auto-launch step. -/
def envLockFail : InitEnv :=
  ⟨some "addons/LOADER_public", .ok (), .ok mgrOn, .error "poisoned", .ok ()⟩

/-- Reduction of `initialize_nexus_addon` on an empty registry once the
addon directory is obtained, created, and the manager constructed: the run
is determined by the lock outcome, the auto-launch flag and the launch
outcome. -/
theorem initialize_reduce (env : InitEnv) (d : String) (m : ExeManager)
    (h1 : env.getAddonDir = some d) (h2 : env.createDirAll = Except.ok ())
    (h3 : env.exeManagerNew = Except.ok m) :
    initialize_nexus_addon env Registry.empty =
      match env.lockMain with
      | .error e =>
        (.error (.ManagerInitialization
          ("Failed to lock exe manager: " ++ e)),
          some m, [Event.managerNew, Event.registrySet])
      | .ok _ =>
        (.ok (), some m,
          [Event.managerNew, Event.registrySet] ++
            (if m.launch_on_startup then
              match env.launchResult with
              | .error e =>
                [Event.launchExe,
                 Event.logError ("Failed to launch exe on startup: " ++ e)]
              | .ok _ => [Event.launchExe]
            else []) ++
            [Event.loadTextures,
             Event.logInfo "Addon textures loaded successfully",
             Event.quickAccess,
             Event.logInfo "Quick access menu setup successfully",
             Event.keybinds,
             Event.logInfo "Keybinds setup successfully",
             Event.uiSetup,
             Event.attach]) := by
  unfold initialize_nexus_addon
  rw [h1, h2, h3]
  rfl

/-- Claim C3: during load, the configuration-loading construction of the
manager happens first, then the manager is registered exactly once into the
process-wide registry, and everything further — in particular any automatic
launch — happens only after registration; the registry afterwards holds the
constructed manager. -/
theorem c3_load_order (env : InitEnv) (d : String) (m : ExeManager)
    (h1 : env.getAddonDir = some d) (h2 : env.createDirAll = Except.ok ())
    (h3 : env.exeManagerNew = Except.ok m) :
    ∃ rest,
      (initialize_nexus_addon env Registry.empty).2.2 =
        Event.managerNew :: Event.registrySet :: rest
      ∧ Event.managerNew ∉ rest
      ∧ Event.registrySet ∉ rest
      ∧ Registry.get (initialize_nexus_addon env Registry.empty).2.1 =
          some m := by
  rw [initialize_reduce env d m h1 h2 h3]
  rcases env.lockMain with s | u
  · exact ⟨[], rfl, by simp, by simp, rfl⟩
  · refine ⟨_, rfl, ?_, ?_, rfl⟩ <;>
    · cases hf : m.launch_on_startup <;> rcases env.launchResult with e | u2 <;>
        simp

/-- Witness for C3 at a concrete input: the all-success environment with
auto-launch enabled. -/
theorem c3_load_order_witness :
    ∃ rest,
      (initialize_nexus_addon envOkOn Registry.empty).2.2 =
        Event.managerNew :: Event.registrySet :: rest
      ∧ Event.managerNew ∉ rest
      ∧ Event.registrySet ∉ rest
      ∧ Registry.get (initialize_nexus_addon envOkOn Registry.empty).2.1 =
          some mgrOn :=
  c3_load_order envOkOn "addons/LOADER_public" mgrOn rfl rfl rfl

/-- Claim C4: with the registry already holding the originally installed
manager, a second run of the load sequence fails at the registration step
with the already-initialized error and does not replace the instance, which
remains reachable via `get()` unchanged; the modelled registry `set`
operation itself rejects every second installation. -/
theorem c4_second_set_rejected (env : InitEnv) (reg : Registry)
    (m0 : ExeManager) (d : String)
    (h0 : Registry.get reg = some m0)
    (h1 : env.getAddonDir = some d) (h2 : env.createDirAll = Except.ok ())
    (h3 : ∃ m, env.exeManagerNew = Except.ok m) :
    (initialize_nexus_addon env reg).1 =
      Except.error (NexusError.ManagerInitialization
        "Failed to set global exe manager")
    ∧ Registry.get (initialize_nexus_addon env reg).2.1 = some m0
    ∧ ∀ m : ExeManager, Registry.set reg m = (reg, false) := by
  obtain ⟨m, h3⟩ := h3
  have hr : reg = some m0 := h0
  subst hr
  refine ⟨?_, ?_, fun m2 => rfl⟩ <;>
    · unfold initialize_nexus_addon
      rw [h1, h2, h3]
      rfl

/-- Witness for C4 at a concrete input: a registry already holding the
auto-launch-enabled manager, re-run with the all-success environment whose
construction yields the other manager. -/
theorem c4_second_set_rejected_witness :
    (initialize_nexus_addon envOkOff (some mgrOn)).1 =
      Except.error (NexusError.ManagerInitialization
        "Failed to set global exe manager")
    ∧ Registry.get (initialize_nexus_addon envOkOff (some mgrOn)).2.1 =
        some mgrOn
    ∧ ∀ m : ExeManager, Registry.set (some mgrOn) m = (some mgrOn, false) :=
  c4_second_set_rejected envOkOff (some mgrOn) mgrOn "addons/LOADER_public"
    rfl rfl rfl ⟨mgrOff, rfl⟩

/-- Claim C5: once the load sequence reaches the auto-launch block (the
manager constructed, registered, and its mutex acquired), `launch_exe` is
called if and only if the persisted `launch_on_startup` flag reads true. -/
theorem c5_autolaunch_iff_flag (env : InitEnv) (d : String) (m : ExeManager)
    (h1 : env.getAddonDir = some d) (h2 : env.createDirAll = Except.ok ())
    (h3 : env.exeManagerNew = Except.ok m)
    (h4 : env.lockMain = Except.ok ()) :
    Event.launchExe ∈ (initialize_nexus_addon env Registry.empty).2.2
      ↔ m.launch_on_startup = true := by
  rw [initialize_reduce env d m h1 h2 h3, h4]
  cases hf : m.launch_on_startup <;>
    rcases env.launchResult with e | u <;> simp

/-- Witness for C5 at concrete inputs, in both directions: with the flag
enabled the launch call is in the trace. -/
theorem c5_autolaunch_iff_flag_witness :
    Event.launchExe ∈ (initialize_nexus_addon envOkOn Registry.empty).2.2 :=
  (c5_autolaunch_iff_flag envOkOn "addons/LOADER_public" mgrOn
    rfl rfl rfl rfl).mpr rfl

/-- Claim C6: when the automatic launch at startup fails, the error is only
logged and the load sequence continues — texture loading, quick access,
keybinds, UI setup and the final attach all still take place and
initialization returns success. -/
theorem c6_autolaunch_failure_tolerated (env : InitEnv) (d : String)
    (m : ExeManager) (e : String)
    (h1 : env.getAddonDir = some d) (h2 : env.createDirAll = Except.ok ())
    (h3 : env.exeManagerNew = Except.ok m)
    (h4 : env.lockMain = Except.ok ())
    (h5 : m.launch_on_startup = true)
    (h6 : env.launchResult = Except.error e) :
    (initialize_nexus_addon env Registry.empty).1 = Except.ok ()
    ∧ Event.logError ("Failed to launch exe on startup: " ++ e) ∈
        (initialize_nexus_addon env Registry.empty).2.2
    ∧ Event.loadTextures ∈ (initialize_nexus_addon env Registry.empty).2.2
    ∧ Event.quickAccess ∈ (initialize_nexus_addon env Registry.empty).2.2
    ∧ Event.keybinds ∈ (initialize_nexus_addon env Registry.empty).2.2
    ∧ Event.uiSetup ∈ (initialize_nexus_addon env Registry.empty).2.2
    ∧ Event.attach ∈ (initialize_nexus_addon env Registry.empty).2.2 := by
  rw [initialize_reduce env d m h1 h2 h3, h4, h5, h6]
  simp

/-- Witness for C6 at a concrete input: auto-launch enabled and
`launch_exe` failing with a concrete spawn error. -/
theorem c6_autolaunch_failure_tolerated_witness :
    (initialize_nexus_addon envLaunchFail Registry.empty).1 = Except.ok ()
    ∧ Event.logError ("Failed to launch exe on startup: " ++ "spawn error") ∈
        (initialize_nexus_addon envLaunchFail Registry.empty).2.2
    ∧ Event.loadTextures ∈
        (initialize_nexus_addon envLaunchFail Registry.empty).2.2
    ∧ Event.quickAccess ∈
        (initialize_nexus_addon envLaunchFail Registry.empty).2.2
    ∧ Event.keybinds ∈
        (initialize_nexus_addon envLaunchFail Registry.empty).2.2
    ∧ Event.uiSetup ∈
        (initialize_nexus_addon envLaunchFail Registry.empty).2.2
    ∧ Event.attach ∈
        (initialize_nexus_addon envLaunchFail Registry.empty).2.2 :=
  c6_autolaunch_failure_tolerated envLaunchFail "addons/LOADER_public" mgrOn
    "spawn error" rfl rfl rfl rfl rfl rfl

/-- Claim C10: during load, a poisoned manager mutex at the auto-launch
step aborts the whole initialization with a `ManagerInitialization` error
(the final attach never happens), whereas a failure of `launch_exe` itself
is tolerated and initialization still succeeds and attaches. -/
theorem c10_lock_poison_aborts (env : InitEnv) (d : String) (m : ExeManager)
    (h1 : env.getAddonDir = some d) (h2 : env.createDirAll = Except.ok ())
    (h3 : env.exeManagerNew = Except.ok m) :
    (∀ s, env.lockMain = Except.error s →
      (initialize_nexus_addon env Registry.empty).1 =
        Except.error (NexusError.ManagerInitialization
          ("Failed to lock exe manager: " ++ s))
      ∧ Event.attach ∉ (initialize_nexus_addon env Registry.empty).2.2)
    ∧ (∀ e, env.lockMain = Except.ok () → m.launch_on_startup = true →
        env.launchResult = Except.error e →
      (initialize_nexus_addon env Registry.empty).1 = Except.ok ()
      ∧ Event.attach ∈ (initialize_nexus_addon env Registry.empty).2.2) := by
  constructor
  · intro s hs
    rw [initialize_reduce env d m h1 h2 h3, hs]
    exact ⟨rfl, by simp⟩
  · intro e hl hf he
    rw [initialize_reduce env d m h1 h2 h3, hl, hf, he]
    exact ⟨rfl, by simp⟩

/-- Witness for C10 at concrete inputs: the poisoned-lock environment
aborts without attaching, and the failing-launch environment succeeds and
attaches. -/
theorem c10_lock_poison_aborts_witness :
    ((initialize_nexus_addon envLockFail Registry.empty).1 =
      Except.error (NexusError.ManagerInitialization
        ("Failed to lock exe manager: " ++ "poisoned"))
    ∧ Event.attach ∉ (initialize_nexus_addon envLockFail Registry.empty).2.2)
    ∧ ((initialize_nexus_addon envLaunchFail Registry.empty).1 =
        Except.ok ()
    ∧ Event.attach ∈
        (initialize_nexus_addon envLaunchFail Registry.empty).2.2) :=
  ⟨(c10_lock_poison_aborts envLockFail "addons/LOADER_public" mgrOn
      rfl rfl rfl).1 "poisoned" rfl,
   (c10_lock_poison_aborts envLaunchFail "addons/LOADER_public" mgrOn
      rfl rfl rfl).2 "spawn error" rfl rfl rfl⟩

/-- Counterexample to claim C1 as stated: when `get_addon_dir` fails during
load, the construction error does not abort merely the process-supervision
subsystem — the whole addon load is aborted: `nexus_load` returns after
logging and none of texture loading, quick access, keybinds, UI setup or
attach takes place, so the rest of the addon does not continue loading. -/
theorem c1_rest_does_not_continue_loading :
    (initialize_nexus_addon envDirFail Registry.empty).1 =
      Except.error (NexusError.ManagerInitialization
        "Failed to get addon directory")
    ∧ Event.loadTextures ∉ (nexus_load envDirFail Registry.empty).2
    ∧ Event.quickAccess ∉ (nexus_load envDirFail Registry.empty).2
    ∧ Event.keybinds ∉ (nexus_load envDirFail Registry.empty).2
    ∧ Event.uiSetup ∉ (nexus_load envDirFail Registry.empty).2
    ∧ Event.attach ∉ (nexus_load envDirFail Registry.empty).2 := by
  refine ⟨rfl, ?_, ?_, ?_, ?_, ?_⟩ <;>
    simp [nexus_load, initialize_nexus_addon, envDirFail]

/-- Claim C1 (amended): if construction of the process-supervision
subsystem fails during addon load (the addon directory cannot be obtained
or created, or the manager constructor returns an error), the entire addon
initialization is aborted: `nexus_load` logs the error and returns without
performing texture loading, attach, or any later setup step; the registry
remains uninitialized, so `get()` returns nothing and the unload trigger
safely skips its stop attempt. -/
theorem c1_construction_failure_aborts_load (env : InitEnv)
    (cenv : CleanupEnv)
    (h : env.getAddonDir = none
      ∨ (∃ s, env.createDirAll = Except.error s)
      ∨ (∃ e, env.exeManagerNew = Except.error e)) :
    (∃ e, (initialize_nexus_addon env Registry.empty).1 = Except.error e)
    ∧ Registry.get (nexus_load env Registry.empty).1 = none
    ∧ Event.loadTextures ∉ (nexus_load env Registry.empty).2
    ∧ Event.attach ∉ (nexus_load env Registry.empty).2
    ∧ (∃ s, Event.logError s ∈ (nexus_load env Registry.empty).2)
    ∧ Event.stopExe ∉
        nexus_unload cenv (nexus_load env Registry.empty).1 := by
  obtain ⟨g, c, n, lk, x⟩ := env
  rcases g with _ | d
  · refine ⟨⟨_, rfl⟩, rfl, ?_, ?_, ?_, ?_⟩ <;>
      simp [nexus_load, initialize_nexus_addon, nexus_unload,
        cleanup_nexus_addon, Registry.get, Registry.empty]
  · rcases c with s | u
    · refine ⟨⟨_, rfl⟩, rfl, ?_, ?_, ?_, ?_⟩ <;>
        simp [nexus_load, initialize_nexus_addon, nexus_unload,
          cleanup_nexus_addon, Registry.get, Registry.empty]
    · rcases n with e | m
      · refine ⟨⟨_, rfl⟩, rfl, ?_, ?_, ?_, ?_⟩ <;>
          simp [nexus_load, initialize_nexus_addon, nexus_unload,
            cleanup_nexus_addon, Registry.get, Registry.empty]
      · rcases h with h | ⟨s, hs⟩ | ⟨e, he⟩
        · simp at h
        · simp at hs
        · simp at he

/-- Witness for the amended C1 at a concrete input: the environment whose
`get_addon_dir` returns nothing, with a healthy cleanup environment. -/
theorem c1_construction_failure_aborts_load_witness :
    (∃ e, (initialize_nexus_addon envDirFail Registry.empty).1 =
      Except.error e)
    ∧ Registry.get (nexus_load envDirFail Registry.empty).1 = none
    ∧ Event.loadTextures ∉ (nexus_load envDirFail Registry.empty).2
    ∧ Event.attach ∉ (nexus_load envDirFail Registry.empty).2
    ∧ (∃ s, Event.logError s ∈ (nexus_load envDirFail Registry.empty).2)
    ∧ Event.stopExe ∉
        nexus_unload cenvOk (nexus_load envDirFail Registry.empty).1 :=
  c1_construction_failure_aborts_load envDirFail cenvOk (Or.inl rfl)

/-- Idle supervisor with a configured executable and no live handles. -/
def supIdle : Supervisor := ⟨.Idle, some "blish.exe", 0⟩

/-- Claim C8: two independent `launch()` calls through the shared
supervisor reference are serialized by the manager mutex (init.rs line 82),
so the interleaving is one call after the other; starting from an Idle
supervisor with a configured target, in either order the first call's spawn
succeeds, the second call is rejected with `AlreadyRunning` without
spawning, and exactly one new process handle exists afterwards. -/
theorem c8_concurrent_launch (s : Supervisor) (p : String)
    (hIdle : s.state = SupervisorState.Idle)
    (hp : s.executable_path = some p) :
    (Supervisor.launch s (Except.ok ())).1 = Except.ok ()
    ∧ (Supervisor.launch
        (Supervisor.launch s (Except.ok ())).2 (Except.ok ())).1 =
        Except.error SupervisorError.AlreadyRunning
    ∧ (Supervisor.launch
        (Supervisor.launch s (Except.ok ())).2 (Except.ok ())).2.liveHandles =
        s.liveHandles + 1 := by
  refine ⟨?_, ?_, ?_⟩ <;> simp [Supervisor.launch, hIdle, hp]

/-- Witness for C8 at a concrete input: the idle supervisor with a
configured target. -/
theorem c8_concurrent_launch_witness :
    (Supervisor.launch supIdle (Except.ok ())).1 = Except.ok ()
    ∧ (Supervisor.launch
        (Supervisor.launch supIdle (Except.ok ())).2 (Except.ok ())).1 =
        Except.error SupervisorError.AlreadyRunning
    ∧ (Supervisor.launch
        (Supervisor.launch supIdle (Except.ok ())).2
          (Except.ok ())).2.liveHandles =
        supIdle.liveHandles + 1 :=
  c8_concurrent_launch supIdle "blish.exe" rfl rfl
